/-
Verification of the onnixbot signal-generation and risk-assessment core.

Shallow embedding of:
  * src/risk_management.py                       (RiskManager)
  * src/ENHANCED_POCKET_OPTION_BOT.py            (signal aggregation pipeline)
  * src/OnnixBot with Payments/technical_analysis.py (TechnicalAnalyzer.generate_signal)
  * the pandas RSI computation shared by ENHANCED_POCKET_OPTION_BOT.py and
    src/OnnixBot with Payments/REALTIME_TRADING_BOT.py

Python floats are modelled as rationals (ℚ); the one place where IEEE
division-by-zero semantics matters (the RSI quotient) uses an explicit
extended-value type.  Python dict lookups with defaults (`d.get(k, v)`)
are modelled as Option-valued record fields read with `Option.getD`.
Wall-clock dates are modelled as natural-number day indices passed
explicitly; the mutable `self.daily_stats` dictionary is passed and
returned explicitly.
-/
import Mathlib

set_option maxHeartbeats 1000000

namespace Onnix

/-! ## Risk management (src/risk_management.py) -/

/-- Configuration dictionary fields read by RiskManager (`self.config.get`).
The source defaults are MAX_POSITION_SIZE = 100, RISK_PERCENTAGE = 2.0,
MAX_DAILY_SIGNALS = 50; here they are explicit record fields. -/
structure RMConfig where
  max_position_size : ℚ
  risk_percentage : ℚ
  max_daily_signals : ℕ
  deriving DecidableEq

/-- The `self.daily_stats` dictionary.  `last_reset` is a day index
(stand-in for `datetime.now().date()`). -/
structure DailyStats where
  trades_taken : ℕ
  signals_sent : ℕ
  max_trades_reached : Bool
  win_rate : ℚ
  profit_loss : ℚ
  last_reset : ℕ
  deriving DecidableEq

/-- A trading-signal dictionary as consumed by `assess_trade_risk`.
Fields read via `signal.get(...)` are Option-valued (a missing key is
`none`); the nested `technical_indicators` dict is flattened into the
four indicator fields the assessor reads. -/
structure RMSignal where
  current_price : Option ℚ
  stop_loss : Option ℚ
  take_profit : Option ℚ
  confidence : Option ℚ
  signal : Option String
  rsi : Option ℚ
  macd : Option ℚ
  macd_signal : Option ℚ
  adx : Option ℚ
  deriving DecidableEq

/-- The assessment dictionary returned by `assess_trade_risk`. -/
structure RiskAssessment where
  risk_level : String
  score : ℤ
  max_loss : ℚ
  risk_reward_ratio : ℚ
  warnings : List String
  recommendation : String
  position_size : ℚ
  deriving DecidableEq

/-- `RiskManager.calculate_position_size` (risk_management.py lines 29-37). -/
def calculate_position_size (cfg : RMConfig) (account_balance risk_percentage
    stop_loss_distance : ℚ) : ℚ :=
  let risk_amount := account_balance * (risk_percentage / 100)
  let position_size := if stop_loss_distance > 0 then risk_amount / stop_loss_distance else 0
  min position_size cfg.max_position_size

/-- `RiskManager.reset_daily_stats` (lines 187-197): fresh zeroed stats
stamped with the current date. -/
def reset_daily_stats (today : ℕ) : DailyStats :=
  { trades_taken := 0, signals_sent := 0, max_trades_reached := false,
    win_rate := 0, profit_loss := 0, last_reset := today }

/-- `RiskManager.check_daily_limits` (lines 176-185).  The Python method
mutates `self.daily_stats` on day rollover, so the embedding returns the
boolean result together with the post-call stats. -/
def check_daily_limits (cfg : RMConfig) (today : ℕ) (st : DailyStats) :
    Bool × DailyStats :=
  let st' := if st.last_reset ≠ today then reset_daily_stats today else st
  (decide (st'.signals_sent ≥ cfg.max_daily_signals), st')

/-- A `trade_result` argument: `none` is a falsy/absent dict; `some none`
is a non-empty dict without a `profit_loss` key; `some (some p)` carries
`profit_loss = p`. -/
abbrev TradeResult := Option (Option ℚ)

/-- `RiskManager.update_daily_stats` (lines 199-212). -/
def update_daily_stats (today : ℕ) (signal_sent : Bool) (trade_result : TradeResult)
    (st : DailyStats) : DailyStats :=
  let st1 := if st.last_reset ≠ today then reset_daily_stats today else st
  let st2 := if signal_sent then { st1 with signals_sent := st1.signals_sent + 1 } else st1
  match trade_result with
  | none => st2
  | some pl =>
    let st3 := { st2 with trades_taken := st2.trades_taken + 1 }
    match pl with
    | none => st3
    | some p => { st3 with profit_loss := st3.profit_loss + p }

/-- The spec's `record_signal_sent()` is `update_daily_stats(signal_sent=True)`. -/
def record_signal_sent (today : ℕ) (st : DailyStats) : DailyStats :=
  update_daily_stats today true none st

/-- Risk-reward scoring rule 1 (lines 84-90). -/
def rrScore (rr : ℚ) : ℤ := if rr < 1 then 3 else if rr < 3/2 then 1 else -1

/-- Warning emitted by rule 1. -/
def rrWarn (rr : ℚ) : List String :=
  if rr < 1 then ["Poor risk-reward ratio"] else []

/-- Stop-distance scoring rule 2 (lines 93-98), on the stop distance as a
percentage of price. -/
def stopScore (riskPercent : ℚ) : ℤ :=
  if riskPercent > 5 then 2 else if riskPercent < 1 then 1 else 0

/-- Warnings emitted by rule 2. -/
def stopWarn (riskPercent : ℚ) : List String :=
  if riskPercent > 5 then ["High stop loss percentage"]
  else if riskPercent < 1 then ["Very tight stop loss"] else []

/-- Confidence scoring rule 3 (lines 101-105). -/
def confScore (confidence : ℚ) : ℤ :=
  if confidence < 30 then 2 else if confidence > 70 then -2 else 0

/-- Warning emitted by rule 3. -/
def confWarn (confidence : ℚ) : List String :=
  if confidence < 30 then ["Low signal confidence"] else []

/-- RSI alignment contribution of rule 4 (lines 112-117). -/
def rsiAlign (sig : Option String) (rsi : ℚ) : ℤ :=
  if (sig = some "BUY" ∧ 30 < rsi ∧ rsi < 70) ∨
     (sig = some "SELL" ∧ 30 < rsi ∧ rsi < 70) then 1 else -1

/-- MACD alignment contribution of rule 4 (lines 120-126). -/
def macdAlign (sig : Option String) (macd macdSignal : ℚ) : ℤ :=
  if (sig = some "BUY" ∧ macd > macdSignal) ∨
     (sig = some "SELL" ∧ macd < macdSignal) then 1 else -1

/-- ADX volatility rule 5 (lines 131-134). -/
def adxScore (adx : ℚ) : ℤ := if adx > 30 then 1 else 0

/-- Warning emitted by rule 5. -/
def adxWarn (adx : ℚ) : List String :=
  if adx > 30 then ["High market volatility"] else []

/-- Risk-level thresholds (lines 139-148). -/
def riskLevelOfScore (s : ℤ) : String :=
  if s ≤ -2 then "VERY_LOW" else if s ≤ 0 then "LOW"
  else if s ≤ 2 then "MEDIUM" else if s ≤ 4 then "HIGH" else "VERY_HIGH"

/-- Recommendation before the daily-limit override (lines 159-162),
starting from the initial value APPROVED. -/
def baseRecommendation (score : ℤ) (confidence : ℚ) : String :=
  if score > 4 ∨ confidence < 20 then "REJECTED"
  else if score > 2 then "CAUTION" else "APPROVED"

/-- The early-return assessment for zero/missing price data (lines 57-60):
the initial dictionary (lines 41-49) with recommendation overwritten to
REJECTED and the warning appended. -/
def invalidAssessment : RiskAssessment :=
  { risk_level := "LOW", score := 0, max_loss := 0, risk_reward_ratio := 0,
    warnings := ["Invalid price data"], recommendation := "REJECTED",
    position_size := 0 }

/-- The main body of `assess_trade_risk` past the invalid-price guard
(lines 62-167). -/
def assessValid (cfg : RMConfig) (today : ℕ) (st : DailyStats) (sig : RMSignal)
    (account_balance : ℚ) : RiskAssessment :=
  let current_price := sig.current_price.getD 0
  let stop_loss := sig.stop_loss.getD 0
  let take_profit := sig.take_profit.getD 0
  let confidence := sig.confidence.getD 0
  let stop_distance := |current_price - stop_loss|
  let risk_percent := stop_distance / current_price * 100
  let profit_distance :=
    if sig.signal = some "BUY" then take_profit - current_price
    else current_price - take_profit
  let risk_reward_ratio := if stop_distance > 0 then profit_distance / stop_distance else 0
  let risk_score := rrScore risk_reward_ratio + stopScore risk_percent
    + confScore confidence + (rsiAlign sig.signal (sig.rsi.getD 50)
    + macdAlign sig.signal (sig.macd.getD 0) (sig.macd_signal.getD 0))
    + adxScore (sig.adx.getD 0)
  let position_size := calculate_position_size cfg account_balance
    cfg.risk_percentage stop_distance
  let limit := (check_daily_limits cfg today st).1
  { risk_level := riskLevelOfScore risk_score,
    score := risk_score,
    max_loss := stop_distance,
    risk_reward_ratio := risk_reward_ratio,
    warnings := rrWarn risk_reward_ratio ++ stopWarn risk_percent
      ++ confWarn confidence ++ adxWarn (sig.adx.getD 0)
      ++ (if limit then ["Daily trading limit reached"] else []),
    recommendation := if limit then "REJECTED" else baseRecommendation risk_score confidence,
    position_size := position_size }

/-- `RiskManager.assess_trade_risk` (lines 39-174).  For numeric inputs the
try-body cannot raise (the only divisions are guarded by the zero-price
early return and the `stop_distance > 0` test), so the except-branch that
would return recommendation ERROR is unreachable and the embedding is the
total function below. -/
def assess_trade_risk (cfg : RMConfig) (today : ℕ) (st : DailyStats)
    (sig : RMSignal) (account_balance : ℚ) : RiskAssessment :=
  if sig.current_price.getD 0 = 0 ∨ sig.stop_loss.getD 0 = 0 then
    invalidAssessment
  else
    assessValid cfg today st sig account_balance

/-! ## Enhanced bot signal pipeline (src/ENHANCED_POCKET_OPTION_BOT.py) -/

/-- The indicator dictionary returned by `calculate_technical_indicators`
(lines 143-156).  The field values are rationals; how they are computed
from the price series does not matter for the aggregation rules, which
read this record. -/
structure EnhInd where
  current_price : ℚ
  rsi : ℚ
  macd : ℚ
  macd_signal : ℚ
  bb_upper : ℚ
  bb_middle : ℚ
  bb_lower : ℚ
  ma_20 : ℚ
  ma_50 : ℚ
  momentum_1 : ℚ
  momentum_5 : ℚ
  volatility : ℚ
  deriving DecidableEq

/-- The mutable aggregation state of `generate_comprehensive_signal`:
the `action`, `signal_strength` and `reasoning` variables (lines 169-171).
Reason strings keep the static text of the source f-strings; the numeric
interpolations (e.g. the formatted RSI value) are omitted. -/
structure AggSt where
  action : String
  strength : ℕ
  reasons : List String
  deriving DecidableEq

/-- Initial aggregation state (lines 169-171). -/
def initSt : AggSt := { action := "HOLD", strength := 0, reasons := [] }

/-- RSI analysis rule (lines 174-192). -/
def applyRsiRule (ind : EnhInd) (st : AggSt) : AggSt :=
  if ind.rsi < 30 then
    { st with
      action := "CALL",
      strength := st.strength + 30,
      reasons := st.reasons ++ ["RSI oversold"] }
  else if ind.rsi > 70 then
    { st with
      action := "PUT",
      strength := st.strength + 30,
      reasons := st.reasons ++ ["RSI overbought"] }
  else if ind.rsi < 40 then
    { st with
      strength := st.strength + 15,
      reasons := st.reasons ++ ["RSI bearish"] }
  else if ind.rsi > 60 then
    { st with
      strength := st.strength + 15,
      reasons := st.reasons ++ ["RSI bullish"] }
  else
    { st with
      strength := st.strength + 5,
      reasons := st.reasons ++ ["RSI neutral"] }

/-- MACD analysis rule (lines 194-206): sets the direction only while it
is still HOLD. -/
def applyMacdRule (ind : EnhInd) (st : AggSt) : AggSt :=
  if ind.macd > ind.macd_signal then
    { st with
      action := if st.action = "HOLD" then "CALL" else st.action,
      strength := st.strength + 25,
      reasons := st.reasons ++ ["MACD bullish crossover"] }
  else
    { st with
      action := if st.action = "HOLD" then "PUT" else st.action,
      strength := st.strength + 25,
      reasons := st.reasons ++ ["MACD bearish crossover"] }

/-- Bollinger-Bands analysis rule (lines 208-229).  Note that a touch of
the lower band rewrites the action whenever it is HOLD *or PUT*, and a
touch of the upper band rewrites it whenever it is HOLD *or CALL*. -/
def applyBbRule (ind : EnhInd) (st : AggSt) : AggSt :=
  if ind.current_price ≤ ind.bb_lower then
    { st with
      action := if st.action = "HOLD" ∨ st.action = "PUT" then "CALL" else st.action,
      strength := st.strength + 20,
      reasons := st.reasons ++ ["Price at lower Bollinger Band"] }
  else if ind.current_price ≥ ind.bb_upper then
    { st with
      action := if st.action = "HOLD" ∨ st.action = "CALL" then "PUT" else st.action,
      strength := st.strength + 20,
      reasons := st.reasons ++ ["Price at upper Bollinger Band"] }
  else if ind.current_price > ind.bb_middle ∧ st.action = "CALL" then
    { st with
      strength := st.strength + 10,
      reasons := st.reasons ++ ["Price above Bollinger middle"] }
  else if ind.current_price < ind.bb_middle ∧ st.action = "PUT" then
    { st with
      strength := st.strength + 10,
      reasons := st.reasons ++ ["Price below Bollinger middle"] }
  else st

/-- Moving-average analysis rule (lines 231-244). -/
def applyMaRule (ind : EnhInd) (st : AggSt) : AggSt :=
  if ind.current_price > ind.ma_20 then
    { st with
      action := if st.action = "HOLD" then "CALL" else st.action,
      strength := st.strength + 15,
      reasons := st.reasons ++ ["Price above MA20"] }
  else if ind.current_price < ind.ma_20 then
    { st with
      action := if st.action = "HOLD" then "PUT" else st.action,
      strength := st.strength + 15,
      reasons := st.reasons ++ ["Price below MA20"] }
  else st

/-- Momentum confirmation rule (lines 246-263); 0.02 is 1/50. -/
def applyMomentumRule (ind : EnhInd) (st : AggSt) : AggSt :=
  if ind.momentum_1 > 1/50 then
    { st with
      action := if st.action = "HOLD" then "CALL" else st.action,
      strength := st.strength + 15,
      reasons := st.reasons ++ ["Strong positive momentum"] }
  else if ind.momentum_1 < -(1/50) then
    { st with
      action := if st.action = "HOLD" then "PUT" else st.action,
      strength := st.strength + 15,
      reasons := st.reasons ++ ["Strong negative momentum"] }
  else if ind.momentum_1 > 0 then
    { st with
      strength := st.strength + 5,
      reasons := st.reasons ++ ["Positive momentum"] }
  else if ind.momentum_1 < 0 then
    { st with
      strength := st.strength + 5,
      reasons := st.reasons ++ ["Negative momentum"] }
  else st

/-- The full rule sequence of `generate_comprehensive_signal`
(lines 168-263), in source order. -/
def aggregateEnh (ind : EnhInd) : AggSt :=
  applyMomentumRule ind (applyMaRule ind (applyBbRule ind
    (applyMacdRule ind (applyRsiRule ind initSt))))

/-- Confidence-level bucketing (lines 266-273), applied to the raw
(uncapped) signal strength. -/
def confidenceLevel (s : ℕ) : String :=
  if s ≥ 80 then "VERY HIGH" else if s ≥ 60 then "HIGH"
  else if s ≥ 40 then "MEDIUM" else "LOW"

/-- Risk level from volatility (line 276). -/
def riskLevelOfVolatility (v : ℚ) : String :=
  if v < 1 then "LOW" else if v < 2 then "MEDIUM" else "HIGH"

/-- The signal dictionary returned by `generate_comprehensive_signal`
(lines 278-299), restricted to the analysis fields; pure UI fields
(pair name, expiry label, timestamp, positions text) are omitted. -/
structure EnhSignal where
  action : String
  current_price : ℚ
  signal_strength : ℕ
  confidence : String
  risk_level : String
  reasoning : List String
  data_freshness : String
  deriving DecidableEq

/-- `calculate_technical_indicators` (lines 107-156).  The guard at lines
109-110 returns None when the series is None/empty/shorter than 20 bars
(`data.empty` is subsumed by `len(data) < 20`); the numeric indicator
computation of the body (lines 112-156) is abstracted as the parameter
`core`, since every claim about this pipeline is independent of the
concrete indicator values. -/
def calculate_technical_indicators (core : List ℚ → EnhInd) (data : List ℚ) :
    Option EnhInd :=
  if data.length < 20 then none else some (core data)

/-- `generate_comprehensive_signal` (lines 158-299) for one timeframe.
`data` is the fetched series for the selected timeframe: `none` models a
failed fetch or a missing timeframe key (lines 160-162). -/
def generate_comprehensive_signal (core : List ℚ → EnhInd)
    (data : Option (List ℚ)) : Option EnhSignal :=
  match data with
  | none => none
  | some series =>
    match calculate_technical_indicators core series with
    | none => none
    | some ind =>
      let agg := aggregateEnh ind
      some { action := agg.action,
             current_price := ind.current_price,
             signal_strength := min agg.strength 95,
             confidence := confidenceLevel agg.strength,
             risk_level := riskLevelOfVolatility ind.volatility,
             reasoning := agg.reasons,
             data_freshness := if series.length > 0 then "LIVE" else "STALE" }

/-- The hardcoded fallback payload of `display_comprehensive_signal`
(lines 580-603), restricted to the same analysis fields. -/
def fallback_signal : EnhSignal :=
  { action := "CALL", current_price := 10923/10000, signal_strength := 75,
    confidence := "MEDIUM", risk_level := "LOW",
    reasoning := ["Real-time data temporarily unavailable. Using market simulation."],
    data_freshness := "SIMULATED" }

/-- The signal actually displayed by `display_comprehensive_signal`
(lines 574-603): the generated signal, or the fallback fixture when
generation returned None. -/
def display_comprehensive_signal (core : List ℚ → EnhInd)
    (data : Option (List ℚ)) : EnhSignal :=
  (generate_comprehensive_signal core data).getD fallback_signal

/-! ## Technical-analysis variant
(src/OnnixBot with Payments/technical_analysis.py, `generate_signal`) -/

/-- The latest-row indicator values read by `TechnicalAnalyzer.generate_signal`
(lines 250-321). -/
structure TAInd where
  RSI : ℚ
  MACD : ℚ
  MACD_Signal : ℚ
  Close : ℚ
  MA20 : ℚ
  MA50 : ℚ
  BB_Lower : ℚ
  BB_Upper : ℚ
  Stoch_K : ℚ
  Stoch_D : ℚ
  ATR : ℚ
  deriving DecidableEq

/-- The candlestick-pattern flags consulted by the scoring (lines 301-308);
other detected patterns are not read by `generate_signal`. -/
structure TAPatterns where
  bullish_engulfing : Bool
  hammer : Bool
  deriving DecidableEq

/-- The signal dictionary returned by `generate_signal` (lines 332-355),
restricted to the scoring and price-geometry fields.  `signal_score` and
`confidence_raw` expose the internal accumulator variables (`signal_score`
and `confidence` before the `min` at line 317) for specification. -/
structure TASignal where
  signal_score : ℤ
  signal : String
  confidence_raw : ℕ
  confidence : ℕ
  current_price : ℚ
  entry_price : ℚ
  stop_loss : ℚ
  take_profit : ℚ
  reasons : List String
  deriving DecidableEq

/-- The mutable accumulation state of `generate_signal`: the
`signal_score`, `confidence` and `reasons` variables (lines 245-248). -/
structure TAAcc where
  score : ℤ
  conf : ℕ
  reasons : List String
  deriving DecidableEq

/-- Initial accumulation state (lines 245-248). -/
def taInit : TAAcc := { score := 0, conf := 0, reasons := [] }

/-- RSI analysis (lines 251-258). -/
def taRsiRule (ind : TAInd) (a : TAAcc) : TAAcc :=
  if ind.RSI < 30 then
    { score := a.score + 1, conf := a.conf + 10, reasons := a.reasons ++ ["RSI Oversold"] }
  else if ind.RSI > 70 then
    { score := a.score - 1, conf := a.conf + 10, reasons := a.reasons ++ ["RSI Overbought"] }
  else a

/-- MACD analysis (lines 261-268). -/
def taMacdRule (ind : TAInd) (a : TAAcc) : TAAcc :=
  if ind.MACD > ind.MACD_Signal then
    { score := a.score + 1, conf := a.conf + 15,
      reasons := a.reasons ++ ["MACD Bullish Crossover"] }
  else
    { score := a.score - 1, conf := a.conf + 15, reasons := a.reasons ++ ["MACD Bearish"] }

/-- Moving-average analysis (lines 271-278). -/
def taMaRule (ind : TAInd) (a : TAAcc) : TAAcc :=
  if ind.Close > ind.MA20 ∧ ind.MA20 > ind.MA50 then
    { score := a.score + 2, conf := a.conf + 20,
      reasons := a.reasons ++ ["Price above MA20 > MA50"] }
  else if ind.Close < ind.MA20 ∧ ind.MA20 < ind.MA50 then
    { score := a.score - 2, conf := a.conf + 20,
      reasons := a.reasons ++ ["Price below MA20 < MA50"] }
  else a

/-- Bollinger-Bands analysis (lines 281-288). -/
def taBbRule (ind : TAInd) (a : TAAcc) : TAAcc :=
  if ind.Close < ind.BB_Lower then
    { score := a.score + 1, conf := a.conf + 15, reasons := a.reasons ++ ["Price below BB Lower"] }
  else if ind.Close > ind.BB_Upper then
    { score := a.score - 1, conf := a.conf + 15, reasons := a.reasons ++ ["Price above BB Upper"] }
  else a

/-- Stochastic analysis (lines 291-298). -/
def taStochRule (ind : TAInd) (a : TAAcc) : TAAcc :=
  if ind.Stoch_K < 20 ∧ ind.Stoch_D < 20 then
    { score := a.score + 1, conf := a.conf + 10, reasons := a.reasons ++ ["Stochastic Oversold"] }
  else if ind.Stoch_K > 80 ∧ ind.Stoch_D > 80 then
    { score := a.score - 1, conf := a.conf + 10,
      reasons := a.reasons ++ ["Stochastic Overbought"] }
  else a

/-- Candlestick-pattern bonuses (lines 301-308): two independent ifs. -/
def taPatternRule (pat : TAPatterns) (a : TAAcc) : TAAcc :=
  let a1 :=
    if pat.bullish_engulfing then
      { score := a.score + 2, conf := a.conf + 25,
        reasons := a.reasons ++ ["Bullish Engulfing Pattern"] }
    else a
  if pat.hammer then
    { score := a1.score + 1, conf := a1.conf + 20, reasons := a1.reasons ++ ["Hammer Pattern"] }
  else a1

/-- The full additive scoring sequence of `generate_signal`
(lines 245-308), in source order. -/
def taAccum (ind : TAInd) (pat : TAPatterns) : TAAcc :=
  taPatternRule pat (taStochRule ind (taBbRule ind (taMaRule ind
    (taMacdRule ind (taRsiRule ind taInit)))))

/-- The signal-generation logic of `TechnicalAnalyzer.generate_signal`
(lines 244-355), as a function of the latest indicator row and the
detected patterns.  The source tuple assignment for
(entry, stop, take-profit) at lines 323-330 is split per component. -/
def generate_signal_ta (ind : TAInd) (pat : TAPatterns) : TASignal :=
  let acc := taAccum ind pat
  -- Final signal (lines 311-314)
  let signalType := if acc.score ≥ 3 then "BUY" else if acc.score ≤ -3 then "SELL" else "HOLD"
  -- Entry, stop loss, take profit (lines 319-330); 1.5 is 3/2
  let current_price := ind.Close
  let atr := ind.ATR
  { signal_score := acc.score, signal := signalType,
    confidence_raw := acc.conf, confidence := min acc.conf 95,
    current_price := current_price,
    entry_price := current_price,
    stop_loss := if signalType = "BUY" then current_price - atr * (3/2)
      else current_price + atr * (3/2),
    take_profit := if signalType = "BUY" then current_price + atr * 2
      else current_price - atr * 2,
    reasons := acc.reasons }

/-! ## RSI edge-case semantics

Both `ENHANCED_POCKET_OPTION_BOT.calculate_technical_indicators`
(lines 114-119) and `REALTIME_TRADING_BOT.calculate_rsi` (lines 51-58)
compute `rs = gain / loss; rsi = 100 - (100 / (1 + rs))` on pandas float
series.  A zero average loss gives `rs = +inf` (positive gain) or NaN
(0/0) under IEEE-754 semantics, never a ZeroDivisionError.  `Fval` models
an IEEE float value as an exact rational, a signed infinity, or NaN. -/

/-- An IEEE-754 value: finite (exact rational), +inf, -inf, or NaN. -/
inductive Fval where
  | fq (x : ℚ)
  | finfP
  | finfN
  | fnan
  deriving DecidableEq

/-- IEEE negation. -/
def fneg : Fval → Fval
  | .fq x => .fq (-x)
  | .finfP => .finfN
  | .finfN => .finfP
  | .fnan => .fnan

/-- IEEE addition (finite + finite never overflows in this model). -/
def fadd : Fval → Fval → Fval
  | .fq a, .fq b => .fq (a + b)
  | .fq _, .finfP => .finfP
  | .fq _, .finfN => .finfN
  | .finfP, .fq _ => .finfP
  | .finfN, .fq _ => .finfN
  | .finfP, .finfP => .finfP
  | .finfN, .finfN => .finfN
  | .finfP, .finfN => .fnan
  | .finfN, .finfP => .fnan
  | .fnan, _ => .fnan
  | _, .fnan => .fnan

/-- IEEE subtraction. -/
def fsub (a b : Fval) : Fval := fadd a (fneg b)

/-- IEEE division (signed-zero subtleties are irrelevant here: pandas
gains/losses are non-negative). -/
def fdiv : Fval → Fval → Fval
  | .fq a, .fq b =>
    if b = 0 then
      if a = 0 then .fnan else if a > 0 then .finfP else .finfN
    else .fq (a / b)
  | .fq _, .finfP => .fq 0
  | .fq _, .finfN => .fq 0
  | .finfP, .fq b => if b < 0 then .finfN else .finfP
  | .finfN, .fq b => if b < 0 then .finfP else .finfN
  | .finfP, .finfP => .fnan
  | .finfP, .finfN => .fnan
  | .finfN, .finfP => .fnan
  | .finfN, .finfN => .fnan
  | .fnan, _ => .fnan
  | _, .fnan => .fnan

/-- `prices.diff()` without its leading NaN: consecutive deltas. -/
def priceDiffs : List ℚ → List ℚ
  | [] => []
  | [_] => []
  | a :: b :: rest => (b - a) :: priceDiffs (b :: rest)

/-- `delta.where(delta > 0, 0)`: per-bar gains. -/
def gainsOf (ps : List ℚ) : List ℚ :=
  (priceDiffs ps).map (fun d => if d > 0 then d else 0)

/-- `(-delta.where(delta < 0, 0))`: per-bar losses (non-negative). -/
def lossesOf (ps : List ℚ) : List ℚ :=
  (priceDiffs ps).map (fun d => if d < 0 then -d else 0)

/-- The last `rolling(window=14).mean()` value of a series: the mean of
its last 14 entries (defined for series with at least 14 entries; pandas
yields NaN below that, which the theorems exclude by hypothesis). -/
def lastRollingMean14 (xs : List ℚ) : ℚ :=
  (xs.drop (xs.length - 14)).sum / 14

/-- Average gain of the last 14-delta window. -/
def avgGain14 (ps : List ℚ) : ℚ := lastRollingMean14 (gainsOf ps)

/-- Average loss of the last 14-delta window. -/
def avgLoss14 (ps : List ℚ) : ℚ := lastRollingMean14 (lossesOf ps)

/-- The last RSI value, `rsi = 100 - (100 / (1 + gain/loss))`, under the
IEEE float semantics of both source variants. -/
def rsiLast (ps : List ℚ) : Fval :=
  fsub (.fq 100) (fdiv (.fq 100)
    (fadd (.fq 1) (fdiv (.fq (avgGain14 ps)) (.fq (avgLoss14 ps)))))

/-! ## Concrete fixtures used by witnesses and counterexamples -/

/-- Configuration with the source defaults: MAX_POSITION_SIZE 100,
RISK_PERCENTAGE 2.0, MAX_DAILY_SIGNALS 50. -/
def cfg0 : RMConfig :=
  { max_position_size := 100, risk_percentage := 2, max_daily_signals := 50 }

/-- Fresh daily stats for day 0. -/
def st0 : DailyStats := reset_daily_stats 0

/-- A high-confidence BUY signal whose stop-loss equals its (non-zero)
entry price and whose indicator dict is empty. -/
def sigEq : RMSignal :=
  { current_price := some 1, stop_loss := some 1, take_profit := some 2,
    confidence := some 80, signal := some "BUY",
    rsi := none, macd := none, macd_signal := none, adx := none }

/-- A signal with a missing current price. -/
def sigZero : RMSignal :=
  { current_price := none, stop_loss := some 1, take_profit := some 2,
    confidence := some 80, signal := some "BUY",
    rsi := none, macd := none, macd_signal := none, adx := none }

/-- A well-formed BUY signal with distinct entry and stop prices. -/
def sigValid : RMSignal :=
  { current_price := some 1, stop_loss := some (99/100), take_profit := some (102/100),
    confidence := some 80, signal := some "BUY",
    rsi := none, macd := none, macd_signal := none, adx := none }

/-- Indicator input on which the first firing rule (RSI overbought) sets
PUT and the lower-Bollinger-band rule later overturns it to CALL. -/
def c1Ind : EnhInd :=
  { current_price := 1, rsi := 80, macd := 1, macd_signal := 0,
    bb_upper := 3, bb_middle := 5/2, bb_lower := 2,
    ma_20 := 0, ma_50 := 0, momentum_1 := 0, momentum_5 := 0, volatility := 0 }

/-- A constant indicator-computation core for witnesses. -/
def coreC : List ℚ → EnhInd := fun _ => c1Ind

/-- A 20-bar price series (long enough to pass the length guard). -/
def series20 : List ℚ := List.replicate 20 1

/-- A strictly increasing 15-bar series: all 14 deltas are +1, so the
rolling average loss is 0 and the rolling average gain is 1. -/
def seriesUp : List ℚ :=
  [0, 1, 2, 3, 4, 5, 6, 7, 8, 9, 10, 11, 12, 13, 14]

/-! ## Claims -/

/-- C4: for every signal whose current price or stop-loss is zero or
missing, `assess_trade_risk` returns the well-formed invalid-data
assessment: recommendation REJECTED with the warning appended.  The
embedding is a total function, so no exception escapes. -/
theorem c4_invalid_price_rejected (cfg : RMConfig) (today : ℕ) (st : DailyStats)
    (sig : RMSignal) (balance : ℚ)
    (h : sig.current_price.getD 0 = 0 ∨ sig.stop_loss.getD 0 = 0) :
    (assess_trade_risk cfg today st sig balance).recommendation = "REJECTED" ∧
    (assess_trade_risk cfg today st sig balance).warnings = ["Invalid price data"] ∧
    assess_trade_risk cfg today st sig balance = invalidAssessment := by
  have he : assess_trade_risk cfg today st sig balance = invalidAssessment := by
    unfold assess_trade_risk
    rw [if_pos h]
  exact ⟨by rw [he]; rfl, by rw [he]; rfl, he⟩

/-- Witness for C4 at a concrete missing-price signal. -/
theorem c4_invalid_price_rejected_witness :
    (assess_trade_risk cfg0 0 st0 sigZero 1000).recommendation = "REJECTED" :=
  (c4_invalid_price_rejected cfg0 0 st0 sigZero 1000 (Or.inl (by decide))).1

/-- C5: when the stored date differs from the current date, the limit
check and the stats update behave exactly as if run on freshly reset
stats, and the reset zeroes all daily counters and advances the stored
date. -/
theorem c5_rollover_resets_before_op (cfg : RMConfig) (today : ℕ) (st : DailyStats)
    (b : Bool) (tr : TradeResult) (h : st.last_reset ≠ today) :
    check_daily_limits cfg today st = check_daily_limits cfg today (reset_daily_stats today) ∧
    update_daily_stats today b tr st = update_daily_stats today b tr (reset_daily_stats today) ∧
    (reset_daily_stats today).signals_sent = 0 ∧
    (reset_daily_stats today).trades_taken = 0 ∧
    (reset_daily_stats today).profit_loss = 0 ∧
    (reset_daily_stats today).last_reset = today := by
  refine ⟨?_, ?_, rfl, rfl, rfl, rfl⟩
  · unfold check_daily_limits
    simp [reset_daily_stats, h]
  · unfold update_daily_stats
    simp [reset_daily_stats, h]

/-- Witness for C5 at day 1 with day-0 stats. -/
theorem c5_rollover_resets_before_op_witness :
    (check_daily_limits cfg0 1 st0).2.signals_sent = 0 := by
  have h := c5_rollover_resets_before_op cfg0 1 st0 true none (by decide)
  rw [h.1]
  exact h.2.2.1

/-- C7: whenever the 14-period rolling average loss is zero while the
average gain is positive, the IEEE semantics of
`rsi = 100 - (100 / (1 + gain/loss))` yields exactly 100 (no exception,
no default to 50). -/
theorem c7_rsi_zero_loss_is_100 (ps : List ℚ) (_hlen : 15 ≤ ps.length)
    (hl : avgLoss14 ps = 0) (hg : 0 < avgGain14 ps) :
    rsiLast ps = Fval.fq 100 := by
  unfold rsiLast
  rw [hl]
  have h1 : fdiv (Fval.fq (avgGain14 ps)) (Fval.fq 0) = Fval.finfP := by
    unfold fdiv
    simp [hg.ne', hg]
  rw [h1]
  show Fval.fq (100 + -0) = Fval.fq 100
  norm_num

/-- Witness for C7: a strictly increasing 15-bar series. -/
theorem c7_rsi_zero_loss_is_100_witness :
    rsiLast seriesUp = Fval.fq 100 :=
  c7_rsi_zero_loss_is_100 seriesUp (by decide)
    (by norm_num [avgLoss14, lastRollingMean14, lossesOf, priceDiffs, seriesUp])
    (by norm_num [avgGain14, lastRollingMean14, gainsOf, priceDiffs, seriesUp])

/-- C8: for non-negative balance and risk percentage and positive stop
distance, the position size is (balance × pct/100) / distance capped by
min at the configured maximum; balance 1000, risk 2 %, stop distance
0.0050 give 4000 before the cap. -/
theorem c8_position_size_formula (cfg : RMConfig) (balance pct dist : ℚ)
    (_hb : 0 ≤ balance) (_hp : 0 ≤ pct) (hd : 0 < dist) :
    calculate_position_size cfg balance pct dist
      = min (balance * (pct / 100) / dist) cfg.max_position_size ∧
    calculate_position_size cfg 1000 2 (1/200) = min 4000 cfg.max_position_size := by
  constructor
  · unfold calculate_position_size
    simp [hd]
  · unfold calculate_position_size
    norm_num

/-- Witness for C8 at the spec scenario (default config caps 4000 to 100). -/
theorem c8_position_size_formula_witness :
    calculate_position_size cfg0 1000 2 (1/200)
      = min (1000 * ((2 : ℚ) / 100) / (1/200)) cfg0.max_position_size :=
  (c8_position_size_formula cfg0 1000 2 (1/200) (by norm_num) (by norm_num) (by norm_num)).1

/-- Helper: recording a signal on the current day increments the counter
and keeps the date. -/
theorem record_signal_sent_same_day (today : ℕ) (st : DailyStats)
    (h : st.last_reset = today) :
    (record_signal_sent today st).signals_sent = st.signals_sent + 1 ∧
    (record_signal_sent today st).last_reset = today := by
  unfold record_signal_sent update_daily_stats
  simp [h]

/-- Helper: n same-day recordings add n to the counter and keep the date. -/
theorem record_signal_sent_iterate (today : ℕ) (n : ℕ) (st : DailyStats)
    (h : st.last_reset = today) :
    ((record_signal_sent today)^[n] st).signals_sent = st.signals_sent + n ∧
    ((record_signal_sent today)^[n] st).last_reset = today := by
  induction n with
  | zero =>
    rw [Function.iterate_zero_apply]
    exact ⟨by omega, h⟩
  | succ k ih =>
    rw [Function.iterate_succ_apply']
    obtain ⟨h1, h2⟩ := ih
    obtain ⟨h3, h4⟩ := record_signal_sent_same_day today _ h2
    rw [h3, h1]
    exact ⟨by ring, h4⟩

/-- Helper: when the daily limit is reached, `assessValid` rejects and
appends the limit warning. -/
theorem assessValid_limit_rejects (cfg : RMConfig) (today : ℕ) (st : DailyStats)
    (sig : RMSignal) (balance : ℚ)
    (h : (check_daily_limits cfg today st).1 = true) :
    (assessValid cfg today st sig balance).recommendation = "REJECTED" ∧
    "Daily trading limit reached" ∈ (assessValid cfg today st sig balance).warnings := by
  unfold assessValid
  simp [h]

/-- C3: starting a day with zero signals sent, after exactly
MAX_DAILY_SIGNALS recordings `check_daily_limits` reports true, and any
subsequent assessment of a signal with non-zero price data is REJECTED
with the daily-limit warning appended, regardless of its scoring. -/
theorem c3_daily_limit_rejects (cfg : RMConfig) (today : ℕ) (st : DailyStats)
    (sig : RMSignal) (balance : ℚ)
    (h0 : st.last_reset = today) (h1 : st.signals_sent = 0)
    (hp : sig.current_price.getD 0 ≠ 0) (hs : sig.stop_loss.getD 0 ≠ 0) :
    (check_daily_limits cfg today
      ((record_signal_sent today)^[cfg.max_daily_signals] st)).1 = true ∧
    (assess_trade_risk cfg today ((record_signal_sent today)^[cfg.max_daily_signals] st)
      sig balance).recommendation = "REJECTED" ∧
    "Daily trading limit reached" ∈ (assess_trade_risk cfg today
      ((record_signal_sent today)^[cfg.max_daily_signals] st) sig balance).warnings := by
  obtain ⟨hc, hd⟩ := record_signal_sent_iterate today cfg.max_daily_signals st h0
  rw [h1] at hc
  have hlim : (check_daily_limits cfg today
      ((record_signal_sent today)^[cfg.max_daily_signals] st)).1 = true := by
    unfold check_daily_limits
    simp [hd, hc]
  refine ⟨hlim, ?_⟩
  have hguard : ¬(sig.current_price.getD 0 = 0 ∨ sig.stop_loss.getD 0 = 0) := by
    push_neg
    exact ⟨hp, hs⟩
  have hrw : assess_trade_risk cfg today ((record_signal_sent today)^[cfg.max_daily_signals] st)
      sig balance = assessValid cfg today ((record_signal_sent today)^[cfg.max_daily_signals] st)
      sig balance := by
    unfold assess_trade_risk
    rw [if_neg hguard]
  rw [hrw]
  exact assessValid_limit_rejects cfg today _ sig balance hlim

/-- Witness for C3: default config, day 0, 50 recordings, the well-formed
fixture signal. -/
theorem c3_daily_limit_rejects_witness :
    (assess_trade_risk cfg0 0 ((record_signal_sent 0)^[cfg0.max_daily_signals] st0)
      sigValid 1000).recommendation = "REJECTED" :=
  (c3_daily_limit_rejects cfg0 0 st0 sigValid 1000 (by decide) (by decide)
    (by norm_num [sigValid]) (by norm_num [sigValid])).2.1

/-- C2 counterexample: a signal whose stop-loss equals its non-zero entry
price is APPROVED when its confidence is high and the daily limit is not
reached — the zero-price guard does not fire for equal prices, and no
other rule forces rejection. -/
theorem c2_equal_stop_entry_can_be_approved :
    sigEq.stop_loss = sigEq.current_price ∧
    sigEq.current_price.getD 0 ≠ 0 ∧
    (assess_trade_risk cfg0 0 st0 sigEq 1000).recommendation = "APPROVED" := by
  refine ⟨rfl, by norm_num [sigEq], ?_⟩
  norm_num [assess_trade_risk, assessValid, sigEq, cfg0, st0, reset_daily_stats,
    check_daily_limits, rrScore, stopScore, confScore, rsiAlign, macdAlign,
    adxScore, baseRecommendation]

/-- C2 amended: for a signal whose stop-loss equals its non-zero entry
price, the assessment completes without error with risk-reward 0,
position size min(0, cap) and the poor-risk-reward and tight-stop
warnings; the recommendation is REJECTED exactly when the risk score
exceeds 4, the confidence is below 20, or the daily limit is reached —
not unconditionally. -/
theorem c2_equal_stop_entry_characterization (cfg : RMConfig) (today : ℕ)
    (st : DailyStats) (sig : RMSignal) (balance : ℚ)
    (hp : sig.current_price.getD 0 ≠ 0) (heq : sig.stop_loss = sig.current_price) :
    (assess_trade_risk cfg today st sig balance).risk_reward_ratio = 0 ∧
    (assess_trade_risk cfg today st sig balance).position_size
      = min 0 cfg.max_position_size ∧
    "Poor risk-reward ratio" ∈ (assess_trade_risk cfg today st sig balance).warnings ∧
    "Very tight stop loss" ∈ (assess_trade_risk cfg today st sig balance).warnings ∧
    ((assess_trade_risk cfg today st sig balance).recommendation = "REJECTED" ↔
      ((assess_trade_risk cfg today st sig balance).score > 4 ∨
       sig.confidence.getD 0 < 20 ∨ (check_daily_limits cfg today st).1 = true)) := by
  have hsl : sig.stop_loss.getD 0 = sig.current_price.getD 0 := by rw [heq]
  have hguard : ¬(sig.current_price.getD 0 = 0 ∨ sig.stop_loss.getD 0 = 0) := by
    push_neg
    exact ⟨hp, by rw [hsl]; exact hp⟩
  have hrw : assess_trade_risk cfg today st sig balance
      = assessValid cfg today st sig balance := by
    unfold assess_trade_risk
    rw [if_neg hguard]
  rw [hrw]
  unfold assessValid
  simp only [hsl, sub_self, abs_zero, zero_div, zero_mul, lt_irrefl, if_false,
    gt_iff_lt]
  have hrr0 : rrScore 0 = 3 := by norm_num [rrScore]
  have hrw0 : rrWarn 0 = ["Poor risk-reward ratio"] := by norm_num [rrWarn]
  have hss0 : stopScore 0 = 1 := by norm_num [stopScore]
  have hsw0 : stopWarn 0 = ["Very tight stop loss"] := by norm_num [stopWarn]
  have hpos : calculate_position_size cfg balance cfg.risk_percentage 0
      = min 0 cfg.max_position_size := by
    norm_num [calculate_position_size]
  simp only [hrr0, hrw0, hss0, hsw0, hpos, List.mem_append, List.mem_singleton]
  refine ⟨trivial, trivial, by tauto, by tauto, ?_⟩
  by_cases hl : (check_daily_limits cfg today st).1
  · simp [hl]
  · simp only [hl, Bool.false_eq_true, if_false]
    unfold baseRecommendation
    by_cases h45 : 3 + 1 + confScore (sig.confidence.getD 0)
        + (rsiAlign sig.signal (sig.rsi.getD 50)
          + macdAlign sig.signal (sig.macd.getD 0) (sig.macd_signal.getD 0))
        + adxScore (sig.adx.getD 0) > 4 ∨ sig.confidence.getD 0 < 20
    · rw [if_pos h45]
      simp only [gt_iff_lt] at h45 ⊢
      tauto
    · rw [if_neg h45]
      push_neg at h45
      constructor
      · intro hcC
        by_cases h2 : 3 + 1 + confScore (sig.confidence.getD 0)
            + (rsiAlign sig.signal (sig.rsi.getD 50)
              + macdAlign sig.signal (sig.macd.getD 0) (sig.macd_signal.getD 0))
            + adxScore (sig.adx.getD 0) > 2
        · rw [if_pos h2] at hcC
          exact absurd hcC (by decide)
        · rw [if_neg h2] at hcC
          exact absurd hcC (by decide)
      · intro hor
        rcases hor with h | h | h
        · omega
        · exact absurd h (not_lt.mpr h45.2)
        · exact h.elim

/-- Witness for the amended C2 at the equal-price fixture (whose
assessment is in fact APPROVED). -/
theorem c2_equal_stop_entry_characterization_witness :
    (assess_trade_risk cfg0 0 st0 sigEq 1000).risk_reward_ratio = 0 :=
  (c2_equal_stop_entry_characterization cfg0 0 st0 sigEq 1000
    (by norm_num [sigEq]) rfl).1

/-- C1 counterexample: on `c1Ind` the first firing rule (RSI overbought)
sets the direction to PUT while it is still HOLD, yet the final direction
is CALL — the lower-Bollinger-band rule overturned the direction after it
had left HOLD. -/
theorem c1_bollinger_overturns_direction :
    (applyRsiRule c1Ind initSt).action = "PUT" ∧
    (applyMacdRule c1Ind (applyRsiRule c1Ind initSt)).action = "PUT" ∧
    (aggregateEnh c1Ind).action = "CALL" := by
  refine ⟨?_, ?_, ?_⟩ <;>
    simp +decide [aggregateEnh, applyRsiRule, applyMacdRule, applyBbRule,
      applyMaRule, applyMomentumRule, initSt, c1Ind]

/-- C1 amended: the direction leaves HOLD at the first firing rule; the
MACD, moving-average and momentum rules never change a direction that has
left HOLD (they only add score and reasons); the Bollinger-Band rule is
the single exception and can overturn only in two ways: a touch of the
lower band flips PUT to CALL, a touch of the upper band flips CALL to
PUT. -/
theorem c1_direction_first_mover_except_bollinger (ind : EnhInd) (st : AggSt)
    (h : st.action ≠ "HOLD") :
    (applyMacdRule ind st).action = st.action ∧
    (applyMaRule ind st).action = st.action ∧
    (applyMomentumRule ind st).action = st.action ∧
    st.strength ≤ (applyMacdRule ind st).strength ∧
    st.strength ≤ (applyMaRule ind st).strength ∧
    st.strength ≤ (applyMomentumRule ind st).strength ∧
    st.strength ≤ (applyBbRule ind st).strength ∧
    ((applyBbRule ind st).action ≠ st.action →
      (ind.current_price ≤ ind.bb_lower ∧ st.action = "PUT" ∧
        (applyBbRule ind st).action = "CALL") ∨
      (ind.bb_upper ≤ ind.current_price ∧ st.action = "CALL" ∧
        (applyBbRule ind st).action = "PUT")) := by
  refine ⟨?_, ?_, ?_, ?_, ?_, ?_, ?_, ?_⟩
  · unfold applyMacdRule
    split_ifs <;> simp [h]
  · unfold applyMaRule
    split_ifs <;> simp [h]
  · unfold applyMomentumRule
    split_ifs <;> simp [h]
  · unfold applyMacdRule
    split_ifs <;> simp
  · unfold applyMaRule
    split_ifs <;> simp
  · unfold applyMomentumRule
    split_ifs <;> simp
  · unfold applyBbRule
    split_ifs <;> simp
  · intro hne
    unfold applyBbRule at hne ⊢
    by_cases h1 : ind.current_price ≤ ind.bb_lower
    · rw [if_pos h1] at hne ⊢
      by_cases hc : st.action = "HOLD" ∨ st.action = "PUT"
      · left
        refine ⟨h1, hc.resolve_left h, ?_⟩
        simp [if_pos hc]
      · rw [if_neg hc] at hne
        exact absurd rfl hne
    · rw [if_neg h1] at hne ⊢
      by_cases h2 : ind.current_price ≥ ind.bb_upper
      · rw [if_pos h2] at hne ⊢
        by_cases hc : st.action = "HOLD" ∨ st.action = "CALL"
        · right
          refine ⟨h2, hc.resolve_left h, ?_⟩
          simp [if_pos hc]
        · rw [if_neg hc] at hne
          exact absurd rfl hne
      · rw [if_neg h2] at hne
        by_cases h3 : ind.current_price > ind.bb_middle ∧ st.action = "CALL"
        · rw [if_pos h3] at hne
          exact absurd rfl hne
        · rw [if_neg h3] at hne
          by_cases h4 : ind.current_price < ind.bb_middle ∧ st.action = "PUT"
          · rw [if_pos h4] at hne
            exact absurd rfl hne
          · rw [if_neg h4] at hne
            exact absurd rfl hne

/-- Witness for the amended C1: with the direction already PUT, the MACD
rule leaves it PUT on the counterexample indicators. -/
theorem c1_direction_first_mover_except_bollinger_witness :
    (applyMacdRule c1Ind { action := "PUT", strength := 0, reasons := [] }).action
      = "PUT" :=
  (c1_direction_first_mover_except_bollinger c1Ind
    { action := "PUT", strength := 0, reasons := [] } (by decide)).1

/-- C6: in the technical-analysis variant the reported confidence is
exactly the accumulated rule points capped by min at 95, hence always in
[0, 95] (the accumulator is a natural number); in the enhanced bot every
generated signal strength is likewise capped at 95. -/
theorem c6_confidence_capped (ind : TAInd) (pat : TAPatterns)
    (core : List ℚ → EnhInd) (data : Option (List ℚ)) :
    (generate_signal_ta ind pat).confidence
      = min (generate_signal_ta ind pat).confidence_raw 95 ∧
    (generate_signal_ta ind pat).confidence ≤ 95 ∧
    (generate_signal_ta ind pat).confidence_raw = (taAccum ind pat).conf ∧
    ((generate_comprehensive_signal core data).map
      (fun s => s.signal_strength)).getD 0 ≤ 95 := by
  refine ⟨rfl, Nat.min_le_right _ _, rfl, ?_⟩
  cases data with
  | none => simp [generate_comprehensive_signal]
  | some series =>
    by_cases hl : series.length < 20 <;>
      simp [generate_comprehensive_signal, calculate_technical_indicators, hl]

/-- C9: every signal actually returned by `generate_comprehensive_signal`
carries freshness LIVE (the STALE branch is unreachable because a signal
needs at least 20 bars), and the displayed signal is SIMULATED only when
generation returned None and the hardcoded fallback fixture (which is
marked SIMULATED) was substituted. -/
theorem c9_freshness_live (core : List ℚ → EnhInd) (data : Option (List ℚ)) :
    (∀ sig : EnhSignal, generate_comprehensive_signal core data = some sig →
      sig.data_freshness = "LIVE") ∧
    fallback_signal.data_freshness = "SIMULATED" ∧
    ((display_comprehensive_signal core data).data_freshness = "SIMULATED" →
      generate_comprehensive_signal core data = none) := by
  have hgen : ∀ sig : EnhSignal, generate_comprehensive_signal core data = some sig →
      sig.data_freshness = "LIVE" := by
    intro sig hsig
    cases data with
    | none => simp [generate_comprehensive_signal] at hsig
    | some series =>
      by_cases hl : series.length < 20
      · simp [generate_comprehensive_signal, calculate_technical_indicators, hl] at hsig
      · have hpos : series.length > 0 := by omega
        simp [generate_comprehensive_signal, calculate_technical_indicators,
          hl, hpos] at hsig
        rw [← hsig]
  refine ⟨hgen, rfl, ?_⟩
  intro hdisp
  cases hcase : generate_comprehensive_signal core data with
  | none => rfl
  | some sig =>
    have h1 : sig.data_freshness = "LIVE" := hgen sig hcase
    have h2 : display_comprehensive_signal core data = sig := by
      unfold display_comprehensive_signal
      rw [hcase]
      rfl
    rw [h2, h1] at hdisp
    exact absurd hdisp (by decide)

/-- Witness for C9: a concrete 20-bar series with a constant core
produces a signal, and the theorem gives its freshness. -/
theorem c9_freshness_live_witness :
    (display_comprehensive_signal coreC (some series20)).data_freshness = "LIVE" := by
  have hsome : generate_comprehensive_signal coreC (some series20)
      = some (display_comprehensive_signal coreC (some series20)) := by
    norm_num [generate_comprehensive_signal, display_comprehensive_signal,
      calculate_technical_indicators, series20]
  exact (c9_freshness_live coreC (some series20)).1 _ hsome

/-- C10: a technical-analysis signal whose final direction is HOLD gets
the SELL-side price geometry: stop = price + 1.5 ATR, target = price
minus 2 ATR, so with positive ATR the target is below and the stop above
the entry price. -/
theorem c10_hold_gets_sell_geometry (ind : TAInd) (pat : TAPatterns)
    (hsig : (generate_signal_ta ind pat).signal = "HOLD") (hatr : 0 < ind.ATR) :
    (generate_signal_ta ind pat).stop_loss
      = (generate_signal_ta ind pat).current_price + ind.ATR * (3/2) ∧
    (generate_signal_ta ind pat).take_profit
      = (generate_signal_ta ind pat).current_price - ind.ATR * 2 ∧
    (generate_signal_ta ind pat).take_profit
      < (generate_signal_ta ind pat).current_price ∧
    (generate_signal_ta ind pat).current_price
      < (generate_signal_ta ind pat).stop_loss := by
  have hne : (generate_signal_ta ind pat).signal ≠ "BUY" := by
    rw [hsig]
    decide
  have hstop : (generate_signal_ta ind pat).stop_loss
      = ind.Close + ind.ATR * (3/2) := by
    show (if (generate_signal_ta ind pat).signal = "BUY"
        then ind.Close - ind.ATR * (3/2) else ind.Close + ind.ATR * (3/2))
      = ind.Close + ind.ATR * (3/2)
    rw [if_neg hne]
  have htp : (generate_signal_ta ind pat).take_profit
      = ind.Close - ind.ATR * 2 := by
    show (if (generate_signal_ta ind pat).signal = "BUY"
        then ind.Close + ind.ATR * 2 else ind.Close - ind.ATR * 2)
      = ind.Close - ind.ATR * 2
    rw [if_neg hne]
  have hcp : (generate_signal_ta ind pat).current_price = ind.Close := rfl
  refine ⟨by rw [hstop, hcp], by rw [htp, hcp], ?_, ?_⟩
  · rw [htp, hcp]
    nlinarith
  · rw [hstop, hcp]
    nlinarith

/-- Witness for C10: all-neutral indicators (score -1 from the MACD
else-branch) with ATR 1 yield a HOLD signal. -/
theorem c10_hold_gets_sell_geometry_witness :
    (generate_signal_ta
      { RSI := 50, MACD := 0, MACD_Signal := 0, Close := 10, MA20 := 10,
        MA50 := 10, BB_Lower := 9, BB_Upper := 11, Stoch_K := 50,
        Stoch_D := 50, ATR := 1 }
      { bullish_engulfing := false, hammer := false }).current_price
      < (generate_signal_ta
      { RSI := 50, MACD := 0, MACD_Signal := 0, Close := 10, MA20 := 10,
        MA50 := 10, BB_Lower := 9, BB_Upper := 11, Stoch_K := 50,
        Stoch_D := 50, ATR := 1 }
      { bullish_engulfing := false, hammer := false }).stop_loss :=
  (c10_hold_gets_sell_geometry _ _
    (by norm_num [generate_signal_ta, taAccum, taPatternRule, taStochRule,
      taBbRule, taMaRule, taMacdRule, taRsiRule, taInit])
    (by norm_num)).2.2.2

end Onnix
